import Mathlib

/-!
Verification development for the per-tick simulation core of PoolTouhou
(`src/pooltouhou/src/systems/game_system.rs`).

The Rust code is shallowly embedded: `f32` scalars are modelled as exact
rationals, the ECS storages as lists of per-entity records, and panics of the
source as explicit `Except` errors.  External collaborators that live outside
`src/` (the script manager, the script VM's invocation contract, the input
source) are modelled at their interface as the specification describes them;
each such definition says so in its doc comment.
-/

/-- Model of nalgebra `Vector3<f32>`; f32 scalars are modelled as exact rationals. -/
structure Vec3 where
  x : ℚ
  y : ℚ
  z : ℚ
deriving DecidableEq

/-- Trigonometric oracle: the engine derives a local "up" direction from the
z-rotation angle via f32 sine and cosine, which have no exact rational
representation, so the development is parametric in them. -/
structure Trig where
  sin : ℚ → ℚ
  cos : ℚ → ℚ

/-- Model of amethyst `Transform` as used by this system: translation, z-axis
rotation angle (radians), the local up direction (the rotation applied to the
+Y axis, carried as an explicit field and refreshed when the rotation is set),
and scale.  The defaults are the identity transform. -/
structure Transform where
  x : ℚ := 0
  y : ℚ := 0
  z : ℚ := 0
  rotZ : ℚ := 0
  upX : ℚ := 0
  upY : ℚ := 1
  scaleX : ℚ := 1
  scaleY : ℚ := 1
  scaleZ : ℚ := 1

def Transform.translation (t : Transform) : Vec3 :=
  ⟨t.x, t.y, t.z⟩

/-- amethyst `Transform::move_up`: translate by `amount` along the local up axis. -/
def Transform.move_up (t : Transform) (amount : ℚ) : Transform :=
  { t with x := t.x + amount * t.upX, y := t.y + amount * t.upY }

/-- amethyst `Transform::set_translation_xyz`. -/
def Transform.set_translation_xyz (t : Transform) (x y z : ℚ) : Transform :=
  { t with x := x, y := y, z := z }

/-- amethyst `Transform::prepend_translation_z`; the only call site has the
identity rotation, where this is a translation along the world z axis. -/
def Transform.prepend_translation_z (t : Transform) (d : ℚ) : Transform :=
  { t with z := t.z + d }

/-- amethyst `Transform::set_scale`. -/
def Transform.set_scale (t : Transform) (s : Vec3) : Transform :=
  { t with scaleX := s.x, scaleY := s.y, scaleZ := s.z }

/-- amethyst `Transform::set_rotation_z_axis`: sets the rotation to `angle`
radians about the z axis; the engine's local up direction becomes
`(-sin angle, cos angle)`, supplied by the `Trig` oracle. -/
def Transform.set_rotation_z_axis (t : Transform) (trig : Trig) (angle : ℚ) : Transform :=
  { t with rotZ := angle, upX := -(trig.sin angle), upY := trig.cos angle }

/-- `is_out_of_game` (game_system.rs lines 360-363). -/
def is_out_of_game (tran : Transform) : Bool :=
  decide (tran.x < -100) || decide (tran.x > 1700) || decide (tran.y > 1000) || decide (tran.y < -100)

/-- `CollideType` (game_system.rs): the stored value of `Circle` is the squared radius. -/
inductive CollideType where
  | Circle (r_2 : ℚ)
deriving DecidableEq

/-- `CollideType::is_collide_with_point` (lines 37-45). -/
def CollideType.is_collide_with_point (self : CollideType) (me other : Vec3) : Bool :=
  match self with
  | .Circle r_2 =>
    let x_distance := me.x - other.x
    let y_distance := me.y - other.y
    decide (x_distance * x_distance + y_distance * y_distance ≤ r_2)

/-- `CollideType::is_collide_with` (lines 47-58); the positive-radius branch is
the source's always-true placeholder. -/
def CollideType.is_collide_with (self : CollideType) (me : Vec3) (other_collide : CollideType) (other : Vec3) : Bool :=
  match self with
  | .Circle r_2 =>
    if r_2 ≤ 0 then other_collide.is_collide_with_point me other
    else true

/-- Failure modes of `CollideType::try_from`: an unrecognized tag is an
`InvalidData` error in the source, and indexing `args[0]` with no argument is a
panic, kept distinct here. -/
inductive CollideTypeError where
  | noSuchValue (value : Nat)
  | missingArg
deriving DecidableEq

/-- `TryFrom<(u8, Vec<f32>)> for CollideType` (lines 61-70). -/
def CollideType.try_from (value : Nat) (args : List ℚ) : Except CollideTypeError CollideType :=
  if value = 10 then
    match args.head? with
    | some a => .ok (.Circle (a * a))
    | none => .error .missingArg
  else .error (.noSuchValue value)

/-- `Player` component; `shoot_cooldown` is a `u8` in the source, modelled as an
integer so that non-negativity is a statable invariant. -/
structure Player where
  move_speed : ℚ
  walk_speed : ℚ
  radius : ℚ
  shoot_cooldown : ℤ
deriving DecidableEq

/-- `Player::new` (lines 82-89). -/
def Player.new (speed : ℚ) : Player :=
  { move_speed := speed, walk_speed := speed * 0.6, radius := 5, shoot_cooldown := 0 }

/-- `ScriptGameCommand` variants interpreted by this system; `other` stands for
any further variant, which this system ignores.  Modelled from the spec: the
enum lives in `crate::script`, outside `src/`. -/
inductive ScriptGameCommand where
  | MoveUp (v : ℚ)
  | SummonBullet (name : String) (x y z angle : ℚ) (collide : CollideType) (script : String) (args : List ℚ)
  | other

/-- Modelled from the spec: `crate::script::Script` (not under `src/`) is an
immutable, cached, named behavior definition; its observable behavior at this
system's interface is the command list a `tick` invocation emits, given the
bound arguments, the entity's transform snapshot, and the player transform
snapshot. -/
structure Script where
  tick : List ℚ → Transform → Option Transform → List ScriptGameCommand

/-- Modelled from the spec: `ScriptContext` binds a `Script` to an argument
vector (per-instance state is abstracted; claims here are per-step). -/
structure ScriptContext where
  script : Script
  args : List ℚ

/-- `ScriptContext::new`. -/
def ScriptContext.new (script : Script) (args : List ℚ) : ScriptContext :=
  { script := script, args := args }

/-- `script.execute_function("tick", game_data)`: runs the bound script's
`tick` and returns the command queue it emitted, in emission order. -/
def ScriptContext.execute_tick (ctx : ScriptContext) (tran : Transform) (player_tran : Option Transform) : List ScriptGameCommand :=
  ctx.script.tick ctx.args tran player_tran

/-- Error of `ScriptManager::load_script` when a script name does not resolve. -/
inductive ScriptLoadError where
  | unresolved (name : String)
deriving DecidableEq

/-- Modelled from the spec: the script manager (outside `src/`) is a
name-to-Script cache with load-on-miss backed by an external loader. -/
structure ScriptManager where
  cache : List (String × Script)
  loader : String → Option Script

/-- `ScriptManager::get_script`: cache lookup, no load. -/
def ScriptManager.get_script (m : ScriptManager) (name : String) : Option Script :=
  (m.cache.find? (fun p => p.1 == name)).map Prod.snd

/-- `ScriptManager::load_script`: consults the loader, caches on success, fails
with `ScriptLoadError` when the name does not resolve. -/
def ScriptManager.load_script (m : ScriptManager) (name : String) : Except ScriptLoadError (Script × ScriptManager) :=
  match m.loader name with
  | some s => .ok (s, { m with cache := (name, s) :: m.cache })
  | none => .error (.unresolved name)

/-- A renderable sprite handle (model of `SpriteRender`). -/
structure SpriteHandle where
  id : String
deriving DecidableEq

/-- A player-bullet entity: the `PlayerBullet` component (damage) together with
its `Transform` and sprite. -/
structure PlayerBulletEnt where
  damage : ℚ
  tran : Transform
  sprite : SpriteHandle

/-- An enemy entity: the `Enemy` component (hp, collide, script) together with
its `Transform`; `deleted` models the deferred `entities.delete` mark (actual
removal happens at world maintain, outside this system, so marked entities are
still iterated later in the same step). -/
structure EnemyEnt where
  hp : ℚ
  collide : CollideType
  script : ScriptContext
  tran : Transform
  deleted : Bool := false

/-- An enemy-bullet entity: the `EnemyBullet` component (collide, script)
together with its `Transform` and sprite. -/
structure EnemyBulletEnt where
  collide : CollideType
  script : ScriptContext
  tran : Transform
  sprite : SpriteHandle

/-- `InvertColorCircle` component. -/
structure InvertColorCircle where
  pos : Transform
  radius : ℚ

/-- `InvertColorAnimation` component. -/
structure InvertColorAnimation where
  last_seconds : ℚ
  spread_per_second : ℚ
  delay_second : ℚ
  transform : Option Transform

/-- An animation entity spawned by `boss_die_anime`; the first carries both an
`InvertColorCircle` and an `InvertColorAnimation`. -/
structure AnimEnt where
  circle : Option InvertColorCircle
  anim : InvertColorAnimation

/-- `boss_die_anime` (lines 282-358): the six-entity death choreography,
mirroring the source's sequential mutation of one scratch transform. -/
def boss_die_anime (enemy_pos : Vec3) : List AnimEnt :=
  let transform1 : Transform := { x := enemy_pos.x, y := enemy_pos.y, z := enemy_pos.z }
  let e1 : AnimEnt :=
    { circle := some { pos := transform1, radius := 0 },
      anim := { last_seconds := 5, spread_per_second := 300, delay_second := 0, transform := none } }
  let transform2 := { transform1 with x := enemy_pos.x - 50, y := enemy_pos.y + 50 }
  let e2 : AnimEnt :=
    { circle := none,
      anim := { last_seconds := 4.75, spread_per_second := 375, delay_second := 0.25, transform := some transform2 } }
  let transform3 := { transform2 with x := enemy_pos.x + 50 }
  let e3 : AnimEnt :=
    { circle := none,
      anim := { last_seconds := 4.75, spread_per_second := 375, delay_second := 0.25, transform := some transform3 } }
  let transform4 := { transform3 with y := enemy_pos.y - 50 }
  let e4 : AnimEnt :=
    { circle := none,
      anim := { last_seconds := 4.75, spread_per_second := 375, delay_second := 0.25, transform := some transform4 } }
  let transform5 := { transform4 with x := enemy_pos.x - 50 }
  let e5 : AnimEnt :=
    { circle := none,
      anim := { last_seconds := 4.75, spread_per_second := 375, delay_second := 0.25, transform := some transform5 } }
  let transform6 := { transform5 with x := enemy_pos.x, y := enemy_pos.y }
  let e6 : AnimEnt :=
    { circle := none,
      anim := { last_seconds := 4, spread_per_second := 500, delay_second := 1, transform := some transform6 } }
  [e1, e2, e3, e4, e5, e6]

/-- Modelled from the spec: the external input source exposes the held-key set
(only LShift and Z are read by this system) and `get_move`, which converts the
held keys into a 2D movement vector scaled by the given speed. -/
structure InputState where
  pressing_lshift : Bool
  pressing_z : Bool
  get_move : ℚ → ℚ × ℚ

/-- The live player entity: the `Player` component and its `Transform`
(`core.player` holds it as an optional reference). -/
structure PlayerEnt where
  player : Player
  tran : Transform

/-- The fields of `CoreStorage` read or written by this system. -/
structure CoreStorage where
  tick_sign : Bool
  tick : Nat
  player : Option PlayerEnt
  cur_input : Option InputState

/-- `TextureHandles`: the sprite registry used when spawning bullets. -/
structure TextureHandles where
  player_bullet : Option SpriteHandle
  bullets : String → Option SpriteHandle

/-- The world state touched by `GameSystem::run`. -/
structure World where
  core : CoreStorage
  player_bullets : List PlayerBulletEnt
  enemies : List EnemyEnt
  enemy_bullets : List EnemyBulletEnt
  player_indicator : Option InvertColorCircle
  anims : List AnimEnt
  texture_handles : TextureHandles
  script_manager : ScriptManager

/-- Panics of the source made explicit: a missing `cur_input`, a missing
player-bullet texture handle, a failed `load_script(..).unwrap()`, and a failed
bullet-sprite lookup. -/
inductive RunError where
  | missingInput
  | missingPlayerBulletHandle
  | scriptLoad (e : ScriptLoadError)
  | missingSprite (name : String)
deriving DecidableEq

/-- The shoot-cooldown branch of `process_player` (lines 246-261): given the
cooldown and whether the fire key is held, returns the new cooldown and whether
a bullet is spawned. -/
def shoot_step (cd : ℤ) (fire : Bool) : ℤ × Bool :=
  if cd = 0 then
    if fire then (2, true) else (cd, false)
  else (cd - 1, false)

/-- The f32 value of `f32::consts::PI` as an exact rational. -/
def PI : ℚ := 13176795 / 4194304

/-- `process_player` (lines 221-280): movement with clamping, the walk
indicator, shooting, and the death check.  Returns the updated world and
`game_data.player_tran` — the post-move transform snapshot, which the source
records before the death check, hence even when the player then dies. -/
def process_player (world : World) : Except RunError (World × Option Transform) :=
  match world.core.player with
  | none => .ok (world, none)
  | some pe =>
    match world.core.cur_input with
    | none => .error .missingInput
    | some input =>
      let player := pe.player
      let is_walk := input.pressing_lshift
      let mov := input.get_move (if is_walk then player.walk_speed else player.move_speed)
      let raw_x := pe.tran.x
      let raw_y := pe.tran.y
      let pos1 : Transform :=
        { pe.tran with x := min (max (mov.1 + raw_x) 0) 1600, y := min (max (mov.2 + raw_y) 0) 900 }
      let indicator : Option InvertColorCircle :=
        if is_walk then some { pos := pos1, radius := player.radius } else none
      let cs := shoot_step player.shoot_cooldown input.pressing_z
      let spawn : Except RunError (List PlayerBulletEnt) :=
        if cs.2 then
          match world.texture_handles.player_bullet with
          | none => .error .missingPlayerBulletHandle
          | some h =>
            let bpos := (pos1.prepend_translation_z (-1)).set_scale ⟨0.5, 0.5, 1⟩
            .ok (world.player_bullets ++ [{ damage := 10, tran := bpos, sprite := h }])
        else .ok world.player_bullets
      match spawn with
      | .error e => .error e
      | .ok pbs =>
        let collide := CollideType.Circle (player.radius * player.radius)
        let die := world.enemy_bullets.any (fun b =>
          b.collide.is_collide_with b.tran.translation collide pos1.translation)
        if die then
          .ok ({ world with
                  core := { world.core with player := none },
                  player_bullets := pbs,
                  player_indicator := indicator,
                  anims := world.anims ++ boss_die_anime pos1.translation }, some pos1)
        else
          .ok ({ world with
                  core := { world.core with
                    player := some { player := { player with shoot_cooldown := cs.1 }, tran := pos1 } },
                  player_bullets := pbs,
                  player_indicator := indicator }, some pos1)

/-- The hit condition of the player-bullet loop: a live enemy whose shape's
point test succeeds at the bullet's position (lines 138-143). -/
def bullet_hits (b : PlayerBulletEnt) (e : EnemyEnt) : Prop :=
  0 < e.hp ∧ e.collide.is_collide_with_point e.tran.translation b.tran.translation = true

instance (b : PlayerBulletEnt) (e : EnemyEnt) : Decidable (bullet_hits b e) :=
  inferInstanceAs (Decidable (_ ∧ _))

/-- The inner enemy loop of the player-bullet pass (lines 137-156) for one
bullet: skips enemies with hp ≤ 0, and on the first point-test hit subtracts
the bullet's damage, marking the enemy deleted and reporting a death position
exactly when the resulting hp is ≤ 0.  Returns `none` when no enemy matches. -/
def bullet_hit_enemies (b : PlayerBulletEnt) : List EnemyEnt → Option (List EnemyEnt × Option Vec3)
  | [] => none
  | e :: rest =>
    if e.hp ≤ 0 then
      (bullet_hit_enemies b rest).map (fun r => (e :: r.1, r.2))
    else if e.collide.is_collide_with_point e.tran.translation b.tran.translation then
      let hp2 := e.hp - b.damage
      if hp2 ≤ 0 then some ({ e with hp := hp2, deleted := true } :: rest, some e.tran.translation)
      else some ({ e with hp := hp2 } :: rest, none)
    else
      (bullet_hit_enemies b rest).map (fun r => (e :: r.1, r.2))

/-- One bullet of the player-bullet pass (lines 134-163): on a hit the bullet
is consumed (it neither moves nor is tested further); otherwise it moves up by
30 and is deleted iff the resulting position is out of the playfield. -/
def step_player_bullet (enemies : List EnemyEnt) (b : PlayerBulletEnt) :
    List EnemyEnt × Option Vec3 × Option PlayerBulletEnt :=
  match bullet_hit_enemies b enemies with
  | some r => (r.1, r.2, none)
  | none =>
    let t := b.tran.move_up 30
    if is_out_of_game t then (enemies, none, none)
    else (enemies, none, some { b with tran := t })

/-- The player-bullet pass over all bullets in store order, threading the
mutated enemy list; returns the enemies, the death positions (each of which
invokes `boss_die_anime`), and the surviving bullets. -/
def player_bullet_pass (enemies : List EnemyEnt) :
    List PlayerBulletEnt → List EnemyEnt × List Vec3 × List PlayerBulletEnt
  | [] => (enemies, [], [])
  | b :: bs =>
    let r := step_player_bullet enemies b
    let rest := player_bullet_pass r.1 bs
    (rest.1, r.2.1.toList ++ rest.2.1, r.2.2.toList ++ rest.2.2)

/-- One command application while draining an enemy bullet's queue: only
`MoveUp` is interpreted, everything else is ignored (lines 173-180). -/
def apply_bullet_command (t : Transform) : ScriptGameCommand → Transform
  | .MoveUp v => t.move_up v
  | _ => t

/-- Draining the command queue by `Vec::pop`, i.e. taking from the back. -/
def drain_bullet_commands (t : Transform) (queue : List ScriptGameCommand) : Transform :=
  queue.reverse.foldl apply_bullet_command t

/-- One enemy bullet of the enemy-bullet pass (lines 165-181): a bullet whose
pre-tick position is already out of bounds is deleted before its script runs;
otherwise `tick` runs once and the emitted queue is drained onto the live
transform.  Also returns the number of script-tick invocations. -/
def step_enemy_bullet (player_tran : Option Transform) (b : EnemyBulletEnt) :
    Option EnemyBulletEnt × Nat :=
  if is_out_of_game b.tran then (none, 0)
  else
    let cmds := b.script.execute_tick b.tran player_tran
    (some { b with tran := drain_bullet_commands b.tran cmds }, 1)

/-- The enemy-bullet pass over all enemy bullets in store order; returns the
surviving bullets and the total number of script-tick invocations. -/
def enemy_bullet_pass (player_tran : Option Transform) :
    List EnemyBulletEnt → List EnemyBulletEnt × Nat
  | [] => ([], 0)
  | b :: bs =>
    let r := step_enemy_bullet player_tran b
    let rest := enemy_bullet_pass player_tran bs
    (r.1.toList ++ rest.1, r.2 + rest.2)

/-- The `SummonBullet` interpreter (lines 190-207): resolve the script through
the manager's cache (loading on a miss, failing with `ScriptLoadError` if the
name does not resolve), build a fresh bound context, resolve the sprite, and
build the enemy-bullet entity.  Also returns the number of load calls made. -/
def handle_summon (trig : Trig) (sm : ScriptManager) (tex : TextureHandles)
    (name : String) (x y z angle : ℚ) (collide : CollideType)
    (script_name : String) (args : List ℚ) :
    Except RunError (ScriptManager × EnemyBulletEnt × Nat) :=
  let resolved : Except RunError (ScriptContext × ScriptManager × Nat) :=
    match sm.get_script script_name with
    | some script => .ok (ScriptContext.new script args, sm, 0)
    | none =>
      match sm.load_script script_name with
      | .ok r => .ok (ScriptContext.new r.1 args, r.2, 1)
      | .error e => .error (.scriptLoad e)
  match resolved with
  | .error e => .error e
  | .ok r =>
    match tex.bullets name with
    | none => .error (.missingSprite name)
    | some h =>
      let pos := (Transform.set_translation_xyz {} x y z).set_rotation_z_axis trig (angle / 180 * PI)
      .ok (r.2.1, { collide := collide, script := r.1, tran := pos, sprite := h }, r.2.2)

/-- Draining one enemy's command queue (pop from the back, so the caller passes
the queue reversed): `SummonBullet` spawns a bullet, everything else is ignored
(lines 188-210). -/
def drain_enemy_commands (trig : Trig) (tex : TextureHandles) :
    ScriptManager → List EnemyBulletEnt → List ScriptGameCommand →
    Except RunError (ScriptManager × List EnemyBulletEnt)
  | sm, acc, [] => .ok (sm, acc)
  | sm, acc, .SummonBullet name x y z angle collide script args :: cs =>
    match handle_summon trig sm tex name x y z angle collide script args with
    | .error e => .error e
    | .ok r => drain_enemy_commands trig tex r.1 (acc ++ [r.2.1]) cs
  | sm, acc, .MoveUp _ :: cs => drain_enemy_commands trig tex sm acc cs
  | sm, acc, .other :: cs => drain_enemy_commands trig tex sm acc cs

/-- The enemy pass (lines 184-211): every enemy still in the storage (including
those delete-marked this step, removal being deferred to maintain) has its
script ticked and its commands drained; returns the script manager and the
enemy bullets spawned, in processing order. -/
def enemy_pass (trig : Trig) (tex : TextureHandles) (player_tran : Option Transform) :
    ScriptManager → List EnemyEnt → Except RunError (ScriptManager × List EnemyBulletEnt)
  | sm, [] => .ok (sm, [])
  | sm, e :: es =>
    let cmds := e.script.execute_tick e.tran player_tran
    match drain_enemy_commands trig tex sm [] cmds.reverse with
    | .error err => .error err
    | .ok r =>
      match enemy_pass trig tex player_tran r.1 es with
      | .error err => .error err
      | .ok rest => .ok (rest.1, r.2 ++ rest.2)

/-- `GameSystem::run` (lines 120-214): the whole step, gated on `tick_sign`;
when the flag is set it is consumed, the tick counter incremented, and the
player, player-bullet, enemy-bullet and enemy passes run in order. -/
def GameSystem.run (trig : Trig) (w : World) : Except RunError World :=
  if w.core.tick_sign then
    match process_player w with
    | .error e => .error e
    | .ok wp =>
      let w1 := wp.1
      let player_tran := wp.2
      let core2 : CoreStorage := { w1.core with tick_sign := false, tick := w1.core.tick + 1 }
      let pb := player_bullet_pass w1.enemies w1.player_bullets
      let anims2 := w1.anims ++ (pb.2.1.map boss_die_anime).flatten
      let eb := enemy_bullet_pass player_tran w1.enemy_bullets
      match enemy_pass trig w1.texture_handles player_tran w1.script_manager pb.1 with
      | .error e => .error e
      | .ok smb =>
        .ok { core := core2,
              player_bullets := pb.2.2,
              enemies := pb.1,
              enemy_bullets := eb.1 ++ smb.2,
              player_indicator := w1.player_indicator,
              anims := anims2,
              texture_handles := w1.texture_handles,
              script_manager := smb.1 }
  else .ok w

/-- Total `MoveUp` translation requested by a command list. -/
def moveup_total : List ScriptGameCommand → ℚ
  | [] => 0
  | .MoveUp v :: cs => v + moveup_total cs
  | _ :: cs => moveup_total cs

/-- A trigonometric oracle instance used by concrete witnesses. -/
def trig0 : Trig := { sin := fun _ => 0, cos := fun _ => 1 }

/-- A script whose tick emits nothing. -/
def script0 : Script := { tick := fun _ _ _ => [] }

/-- A script whose tick emits one `MoveUp 5` and one ignored command. -/
def scriptMove5 : Script := { tick := fun _ _ _ => [.MoveUp 5, .other] }

/-- A context binding `script0` to no arguments. -/
def ctx0 : ScriptContext := { script := script0, args := [] }

/-- An empty script manager whose loader resolves nothing. -/
def sm0 : ScriptManager := { cache := [], loader := fun _ => none }

/-- A texture registry resolving nothing. -/
def tex0 : TextureHandles := { player_bullet := none, bullets := fun _ => none }

/-- A world with no entities and no input, with the given tick flag. -/
def wQuiet (sign : Bool) : World :=
  { core := { tick_sign := sign, tick := 0, player := none, cur_input := none },
    player_bullets := [], enemies := [], enemy_bullets := [],
    player_indicator := none, anims := [], texture_handles := tex0, script_manager := sm0 }

/-- `wQuiet true` after one step: flag consumed, tick counter at 1. -/
def wQuietTicked : World :=
  { wQuiet true with core := { tick_sign := false, tick := 1, player := none, cur_input := none } }

/-- An input pushing far beyond the playfield with no keys held. -/
def inputRush : InputState :=
  { pressing_lshift := false, pressing_z := false, get_move := fun _ => (10000, 10000) }

/-- An input requesting no movement with no keys held. -/
def inputStill : InputState :=
  { pressing_lshift := false, pressing_z := false, get_move := fun _ => (0, 0) }

/-- A player at (10, 10) built by `Player::new(5.0)`. -/
def peSample : PlayerEnt := { player := Player.new 5, tran := { x := 10, y := 10 } }

/-- A world holding `peSample` and the rushing input. -/
def wMove : World :=
  { wQuiet true with core := { tick_sign := true, tick := 0, player := some peSample, cur_input := some inputRush } }

/-- The post-move transform of `peSample` under `inputRush`. -/
def tMoved : Transform := { x := min (max (10000 + 10) 0) 1600, y := min (max (10000 + 10) 0) 900 }

/-- `wMove` after `process_player`. -/
def wMoved : World :=
  { wMove with core := { wMove.core with player := some { player := Player.new 5, tran := tMoved } } }

/-- A positive-radius enemy bullet far away from the player. -/
def ebFar : EnemyBulletEnt :=
  { collide := .Circle 1, script := ctx0, tran := { x := 1000, y := 500 }, sprite := { id := "eb" } }

/-- A world holding `peSample`, the still input, and `ebFar`. -/
def wDeath : World :=
  { wQuiet true with
    core := { tick_sign := true, tick := 0, player := some peSample, cur_input := some inputStill },
    enemy_bullets := [ebFar] }

/-- The post-move transform of `peSample` under `inputStill`. -/
def tStill : Transform := { x := min (max (0 + 10) 0) 1600, y := min (max (0 + 10) 0) 900 }

/-- `wDeath` after `process_player`: the player is gone. -/
def wDead : World :=
  { wDeath with core := { wDeath.core with player := none }, anims := boss_die_anime tStill.translation }

/-- A player bullet at the origin. -/
def bulletSample : PlayerBulletEnt := { damage := 10, tran := {}, sprite := { id := "pb" } }

/-- An already-dead enemy whose shape would match the origin. -/
def enemyDead : EnemyEnt := { hp := 0, collide := .Circle 10000, script := ctx0, tran := {} }

/-- A live enemy whose shape matches the origin. -/
def enemyLive : EnemyEnt := { hp := 5, collide := .Circle 10000, script := ctx0, tran := { x := 3, y := 4 } }

/-- An in-bounds enemy bullet driven by `scriptMove5`. -/
def ebMove : EnemyBulletEnt :=
  { collide := .Circle 1, script := { script := scriptMove5, args := [] }, tran := {}, sprite := { id := "eb" } }

/-- An enemy bullet already out of the playfield. -/
def ebOut : EnemyBulletEnt :=
  { collide := .Circle 1, script := ctx0, tran := { x := -200 }, sprite := { id := "eb" } }

/-- A script manager whose cache already holds "s1". -/
def smCached : ScriptManager := { cache := [("s1", script0)], loader := fun _ => none }

/-- A script manager with an empty cache whose loader resolves everything. -/
def smLoadable : ScriptManager := { cache := [], loader := fun _ => some script0 }

/-- A texture registry resolving only the sprite name "basic". -/
def texBasic : TextureHandles :=
  { player_bullet := none, bullets := fun n => if n == "basic" then some { id := "basic" } else none }

/-- Point-circle testing is symmetric in the two points. -/
theorem is_collide_with_point_symm (c : CollideType) (a b : Vec3) :
    c.is_collide_with_point a b = c.is_collide_with_point b a := by
  cases c with
  | Circle r2 =>
    simp only [CollideType.is_collide_with_point]
    have h : (a.x - b.x) * (a.x - b.x) + (a.y - b.y) * (a.y - b.y)
        = (b.x - a.x) * (b.x - a.x) + (b.y - a.y) * (b.y - a.y) := by ring
    rw [h]

/-- Claim C3: a circle with stored squared radius ≤ 0 delegates
`is_collide_with` to the other shape's point test at the circle's own center
(the source calls the other shape's point test with the two centers, which
agrees by symmetry of the point test), and a circle with positive stored
squared radius yields the always-true placeholder against any shape. -/
theorem circle_degenerate_collide_spec (r_2 : ℚ) (other : CollideType) (me o : Vec3) :
    (r_2 ≤ 0 → CollideType.is_collide_with (.Circle r_2) me other o = other.is_collide_with_point o me) ∧
    (0 < r_2 → CollideType.is_collide_with (.Circle r_2) me other o = true) := by
  constructor
  · intro h
    show (if r_2 ≤ 0 then other.is_collide_with_point me o else true) = _
    rw [if_pos h, is_collide_with_point_symm]
  · intro h
    show (if r_2 ≤ 0 then other.is_collide_with_point me o else true) = true
    rw [if_neg (not_le.mpr h)]

/-- Witness for C3: a zero-radius circle at the origin against a circle of
squared radius 9 centered at (1,2,3), and a positive-radius circle against the
same shape. -/
theorem circle_degenerate_collide_witness :
    CollideType.is_collide_with (.Circle 0) ⟨0, 0, 0⟩ (.Circle 9) ⟨1, 2, 3⟩
      = CollideType.is_collide_with_point (.Circle 9) ⟨1, 2, 3⟩ ⟨0, 0, 0⟩ ∧
    CollideType.is_collide_with (.Circle 4) ⟨0, 0, 0⟩ (.Circle 9) ⟨1, 2, 3⟩ = true :=
  ⟨(circle_degenerate_collide_spec 0 (.Circle 9) ⟨0, 0, 0⟩ ⟨1, 2, 3⟩).1 le_rfl,
   (circle_degenerate_collide_spec 4 (.Circle 9) ⟨0, 0, 0⟩ ⟨1, 2, 3⟩).2 (by norm_num)⟩

/-- Claim C8: for every death position, `boss_die_anime` spawns exactly these
six animation entities: the primary circle (5.0s, 300/s, no delay) at the death
position, four offset circles at (-50,+50), (+50,+50), (+50,-50), (-50,-50)
with 4.75s, 375/s, 0.25s delay, and a final circle at the death position with
4.0s, 500/s, 1.0s delay; nothing else is created and the output is a pure
function of the position. -/
theorem boss_die_anime_spec (p : Vec3) :
    boss_die_anime p =
      [ { circle := some { pos := { x := p.x, y := p.y, z := p.z }, radius := 0 },
          anim := { last_seconds := 5, spread_per_second := 300, delay_second := 0, transform := none } },
        { circle := none,
          anim := { last_seconds := 4.75, spread_per_second := 375, delay_second := 0.25,
                    transform := some { x := p.x - 50, y := p.y + 50, z := p.z } } },
        { circle := none,
          anim := { last_seconds := 4.75, spread_per_second := 375, delay_second := 0.25,
                    transform := some { x := p.x + 50, y := p.y + 50, z := p.z } } },
        { circle := none,
          anim := { last_seconds := 4.75, spread_per_second := 375, delay_second := 0.25,
                    transform := some { x := p.x + 50, y := p.y - 50, z := p.z } } },
        { circle := none,
          anim := { last_seconds := 4.75, spread_per_second := 375, delay_second := 0.25,
                    transform := some { x := p.x - 50, y := p.y - 50, z := p.z } } },
        { circle := none,
          anim := { last_seconds := 4, spread_per_second := 500, delay_second := 1,
                    transform := some { x := p.x, y := p.y, z := p.z } } } ] ∧
    (boss_die_anime p).length = 6 :=
  ⟨rfl, rfl⟩

/-- Claim C10: tag 10 with args [r] builds `Circle (r*r)` (radius squared);
the resulting point test accepts exactly the points whose squared planar
distance from the center is ≤ r*r, the boundary included; the test ignores z;
and every unrecognized tag is rejected with an error. -/
theorem collide_round_trip_spec (r : ℚ) (p q : Vec3) :
    (CollideType.try_from 10 [r] = .ok (.Circle (r * r))) ∧
    ((CollideType.Circle (r * r)).is_collide_with_point p q = true ↔
      (p.x - q.x) * (p.x - q.x) + (p.y - q.y) * (p.y - q.y) ≤ r * r) ∧
    (∀ z1 z2 : ℚ,
      (CollideType.Circle (r * r)).is_collide_with_point { p with z := z1 } { q with z := z2 }
        = (CollideType.Circle (r * r)).is_collide_with_point p q) ∧
    (∀ value : Nat, value ≠ 10 → ∀ args : List ℚ,
      CollideType.try_from value args = .error (.noSuchValue value)) := by
  refine ⟨rfl, ?_, ?_, ?_⟩
  · simp [CollideType.is_collide_with_point]
  · intro z1 z2
    rfl
  · intro value hv args
    simp [CollideType.try_from, hv]

/-- Witness for C10: tag 10 with [3.0] stores 9; a point at squared distance
exactly 9 collides; tag 7 is rejected. -/
theorem collide_round_trip_witness :
    CollideType.try_from 10 [3] = .ok (.Circle 9) ∧
    (CollideType.Circle 9).is_collide_with_point ⟨3, 0, 5⟩ ⟨0, 0, 7⟩ = true ∧
    CollideType.try_from 7 [] = .error (.noSuchValue 7) := by
  have h9 : (9 : ℚ) = 3 * 3 := by norm_num
  rw [h9]
  exact ⟨(collide_round_trip_spec 3 ⟨3, 0, 5⟩ ⟨0, 0, 7⟩).1,
    ((collide_round_trip_spec 3 ⟨3, 0, 5⟩ ⟨0, 0, 7⟩).2.1).mpr (by norm_num),
    (collide_round_trip_spec 3 ⟨3, 0, 5⟩ ⟨0, 0, 7⟩).2.2.2 7 (by norm_num) []⟩

/-- Moving up twice accumulates the amounts. -/
theorem move_up_move_up (t : Transform) (a c : ℚ) :
    (t.move_up a).move_up c = t.move_up (a + c) := by
  cases t
  simp only [Transform.move_up, Transform.mk.injEq, and_true, true_and]
  constructor <;> ring

/-- Moving up by zero is the identity. -/
theorem move_up_zero (t : Transform) : t.move_up 0 = t := by
  cases t
  simp [Transform.move_up]

/-- Draining a command queue moves the transform up by the total of the
`MoveUp` amounts; all other command kinds are ignored. -/
theorem drain_eq_move_up (t : Transform) (q : List ScriptGameCommand) :
    drain_bullet_commands t q = t.move_up (moveup_total q) := by
  induction q generalizing t with
  | nil => simp [drain_bullet_commands, moveup_total, move_up_zero]
  | cons c cs ih =>
    have h : drain_bullet_commands t (c :: cs) = apply_bullet_command (drain_bullet_commands t cs) c := by
      simp [drain_bullet_commands, List.reverse_cons, List.foldl_append]
    rw [h, ih]
    cases c with
    | MoveUp v => simp [apply_bullet_command, moveup_total, move_up_move_up, add_comm]
    | SummonBullet name x y z angle collide script args => simp [apply_bullet_command, moveup_total]
    | other => simp [apply_bullet_command, moveup_total]

/-- Claim C2: an enemy bullet whose position at the start of its processing is
out of the playfield bounds is deleted with its script's tick never invoked
that step (tick count 0); an in-bounds enemy bullet has its tick run exactly
once, and only afterwards are the drained `MoveUp` commands applied by
translating its live transform (all other command kinds are ignored, so the
net effect is a move-up by the total requested amount). -/
theorem enemy_bullet_step_spec (pt : Option Transform) (b : EnemyBulletEnt) :
    (is_out_of_game b.tran = true → step_enemy_bullet pt b = (none, 0)) ∧
    (is_out_of_game b.tran = false →
      step_enemy_bullet pt b =
        (some { b with tran := b.tran.move_up (moveup_total (b.script.execute_tick b.tran pt)) }, 1)) := by
  constructor
  · intro h
    simp [step_enemy_bullet, h]
  · intro h
    simp [step_enemy_bullet, h, drain_eq_move_up]

/-- Witness for C2: a bullet at x = -200 is deleted untouched with zero tick
calls; a bullet at the origin driven by `scriptMove5` survives, ticks once, and
moves by the emitted `MoveUp` total. -/
theorem enemy_bullet_step_witness :
    step_enemy_bullet none ebOut = (none, 0) ∧
    step_enemy_bullet none ebMove =
      (some { ebMove with tran := ebMove.tran.move_up (moveup_total (ebMove.script.execute_tick ebMove.tran none)) }, 1) :=
  ⟨(enemy_bullet_step_spec none ebOut).1 rfl,
   (enemy_bullet_step_spec none ebMove).2 rfl⟩

/-- When no enemy in the list is live and overlapping, the inner loop finds
nothing. -/
theorem bullet_hit_enemies_of_no_hit (b : PlayerBulletEnt) (enemies : List EnemyEnt)
    (h : ∀ e ∈ enemies, ¬ bullet_hits b e) :
    bullet_hit_enemies b enemies = none := by
  induction enemies with
  | nil => rfl
  | cons e es ih =>
    have he := h e (List.mem_cons_self e es)
    have hrest : bullet_hit_enemies b es = none := ih (fun x hx => h x (List.mem_cons_of_mem e hx))
    by_cases h1 : e.hp ≤ 0
    · simp [bullet_hit_enemies, h1, hrest]
    · have h2 : ¬ (e.collide.is_collide_with_point e.tran.translation b.tran.translation = true) :=
        fun hc => he ⟨lt_of_not_le h1, hc⟩
      simp [bullet_hit_enemies, h1, h2, hrest]

/-- The inner loop stops on the first live overlapping enemy in store order:
enemies before it are left untouched, its hp is reduced by the bullet's damage,
and it is delete-marked with a death position reported exactly when the
resulting hp is ≤ 0. -/
theorem bullet_hit_enemies_first_hit (b : PlayerBulletEnt) (pre post : List EnemyEnt) (e : EnemyEnt)
    (hpre : ∀ x ∈ pre, ¬ bullet_hits b x) (he : bullet_hits b e) :
    bullet_hit_enemies b (pre ++ e :: post) =
      some (pre ++ (if e.hp - b.damage ≤ 0 then { e with hp := e.hp - b.damage, deleted := true }
                    else { e with hp := e.hp - b.damage }) :: post,
            if e.hp - b.damage ≤ 0 then some e.tran.translation else none) := by
  induction pre with
  | nil =>
    obtain ⟨hhp, hcol⟩ := he
    simp only [List.nil_append, bullet_hit_enemies]
    rw [if_neg (not_le.mpr hhp), if_pos hcol]
    by_cases h2 : e.hp - b.damage ≤ 0
    · rw [if_pos h2, if_pos h2, if_pos h2]
    · rw [if_neg h2, if_neg h2, if_neg h2]
  | cons p ps ih =>
    have hp1 := hpre p (List.mem_cons_self p ps)
    have ihh := ih (fun x hx => hpre x (List.mem_cons_of_mem p hx))
    simp only [List.cons_append, bullet_hit_enemies, List.append_eq]
    by_cases h1 : p.hp ≤ 0
    · rw [if_pos h1, ihh]
      rfl
    · have h2 : ¬ (p.collide.is_collide_with_point p.tran.translation b.tran.translation = true) :=
        fun hc => hp1 ⟨lt_of_not_le h1, hc⟩
      rw [if_neg h1, if_neg h2, ihh]
      rfl

/-- Claim C1: for one simulation step and one live player bullet, the bullet is
tested in store order against each enemy with hp > 0 using the enemy shape's
point test at the bullet's position; on the first match the bullet's damage is
subtracted from that enemy's hp, the enemy is delete-marked and the death
animation position reported exactly when the resulting hp is ≤ 0, and the
bullet is consumed without moving or touching any further enemy; when no enemy
matches, the enemies are untouched, the bullet moves up by exactly 30 units,
and it is deleted iff the resulting position is out of the playfield bounds. -/
theorem player_bullet_step_spec (b : PlayerBulletEnt) (enemies : List EnemyEnt) :
    ((∀ e ∈ enemies, ¬ bullet_hits b e) →
      step_player_bullet enemies b =
        (enemies, none,
         if is_out_of_game (b.tran.move_up 30) then none else some { b with tran := b.tran.move_up 30 })) ∧
    (∀ pre e post, enemies = pre ++ e :: post →
      (∀ x ∈ pre, ¬ bullet_hits b x) → bullet_hits b e →
      step_player_bullet enemies b =
        (pre ++ (if e.hp - b.damage ≤ 0 then { e with hp := e.hp - b.damage, deleted := true }
                 else { e with hp := e.hp - b.damage }) :: post,
         if e.hp - b.damage ≤ 0 then some e.tran.translation else none,
         none)) := by
  constructor
  · intro h
    simp only [step_player_bullet, bullet_hit_enemies_of_no_hit b enemies h]
    by_cases ho : is_out_of_game (b.tran.move_up 30) = true
    · simp [ho]
    · simp [ho]
  · intro pre e post heq hpre he
    subst heq
    simp only [step_player_bullet, bullet_hit_enemies_first_hit b pre post e hpre he]

/-- Witness for C1: a damage-10 bullet at the origin skips a dead enemy in
store order, hits the first live overlapping enemy, whose hp drops to -5, so
the enemy is delete-marked, its position reported for the death animation, and
the bullet consumed. -/
theorem player_bullet_step_witness :
    step_player_bullet [enemyDead, enemyLive] bulletSample =
      ([enemyDead, { hp := 5 - 10, collide := enemyLive.collide, script := enemyLive.script,
                     tran := enemyLive.tran, deleted := true }],
       some enemyLive.tran.translation, none) := by
  have h := (player_bullet_step_spec bulletSample [enemyDead, enemyLive]).2 [enemyDead] enemyLive []
    rfl
    (by
      intro x hx
      rw [List.mem_singleton] at hx
      subst hx
      intro hb
      have h1 := hb.1
      norm_num [enemyDead] at h1)
    ⟨by norm_num [enemyLive],
     by norm_num [enemyLive, bulletSample, CollideType.is_collide_with_point, Transform.translation]⟩
  rw [h]
  norm_num [enemyLive, enemyDead, bulletSample]

/-- A successful `process_player` leaves the tick counter, the tick flag and
the input untouched; only `core.player` may change. -/
theorem process_player_core_fields (w : World) (r : World × Option Transform)
    (h : process_player w = .ok r) :
    r.1.core.tick = w.core.tick ∧ r.1.core.tick_sign = w.core.tick_sign := by
  unfold process_player at h
  cases hpl : w.core.player with
  | none =>
    rw [hpl] at h
    injection h with h1
    rw [← h1]
    exact ⟨rfl, rfl⟩
  | some pe =>
    rw [hpl] at h
    cases hin : w.core.cur_input with
    | none =>
      rw [hin] at h
      exact Except.noConfusion h
    | some inp =>
      rw [hin] at h
      dsimp only [] at h
      by_cases hsp : (shoot_step pe.player.shoot_cooldown inp.pressing_z).2 = true
      · rw [if_pos hsp] at h
        cases htex : w.texture_handles.player_bullet with
        | none =>
          rw [htex] at h
          dsimp only [] at h
          exact Except.noConfusion h
        | some hd =>
          rw [htex] at h
          dsimp only [] at h
          split at h <;> split at h <;>
            (injection h with h1; rw [← h1]; exact ⟨rfl, rfl⟩)
      · rw [if_neg hsp] at h
        dsimp only [] at h
        split at h <;> split at h <;>
          (injection h with h1; rw [← h1]; exact ⟨rfl, rfl⟩)

/-- Claim C5: with the tick-ready flag false the step mutates nothing (the
world is returned unchanged); with the flag true, any successful step consumes
the flag and increments the tick counter by exactly one, so at most one
simulation step runs per externally-signaled tick. -/
theorem tick_gate_spec (trig : Trig) (w : World) :
    (w.core.tick_sign = false → GameSystem.run trig w = .ok w) ∧
    (w.core.tick_sign = true → ∀ w', GameSystem.run trig w = .ok w' →
      w'.core.tick_sign = false ∧ w'.core.tick = w.core.tick + 1) := by
  constructor
  · intro h
    simp [GameSystem.run, h]
  · intro h w' hrun
    unfold GameSystem.run at hrun
    rw [h] at hrun
    rw [if_pos rfl] at hrun
    cases hpp : process_player w with
    | error e =>
      rw [hpp] at hrun
      exact Except.noConfusion hrun
    | ok wp =>
      rw [hpp] at hrun
      dsimp only [] at hrun
      cases hep : enemy_pass trig wp.1.texture_handles wp.2 wp.1.script_manager
          (player_bullet_pass wp.1.enemies wp.1.player_bullets).1 with
      | error e =>
        rw [hep] at hrun
        exact Except.noConfusion hrun
      | ok smb =>
        rw [hep] at hrun
        injection hrun with h1
        obtain ⟨ht, hs⟩ := process_player_core_fields w wp hpp
        rw [← h1]
        refine ⟨rfl, ?_⟩
        show wp.1.core.tick + 1 = w.core.tick + 1
        rw [ht]

/-- Witness for C5: on the empty world the step is the identity when the flag
is false; when the flag is true the result has the flag consumed and the tick
counter advanced by one. -/
theorem tick_gate_witness :
    GameSystem.run trig0 (wQuiet false) = .ok (wQuiet false) ∧
    (wQuietTicked.core.tick_sign = false ∧ wQuietTicked.core.tick = (wQuiet true).core.tick + 1) :=
  ⟨(tick_gate_spec trig0 (wQuiet false)).1 rfl,
   (tick_gate_spec trig0 (wQuiet true)).2 rfl wQuietTicked rfl⟩

/-- Commutation form of the source's clamp: `.max(0.0).min(hi)` is the clamp of
the sum to `[0, hi]`. -/
theorem min_max_clamp (a b hi : ℚ) : min (max (a + b) 0) hi = min hi (max 0 (b + a)) := by
  rw [min_comm, max_comm, add_comm]

/-- Claim C6: in any step in which a player exists (for any starting position
and any input movement vector at the selected speed), the post-move player
transform has x clamped to [0, 1600] and y clamped to [0, 900], each axis
independently, with z unchanged. -/
theorem player_move_clamp_spec (w : World) (pe : PlayerEnt) (inp : InputState)
    (w' : World) (t' : Transform)
    (hpl : w.core.player = some pe) (hin : w.core.cur_input = some inp)
    (hrun : process_player w = .ok (w', some t')) :
    t'.x = min 1600 (max 0 (pe.tran.x +
      (inp.get_move (if inp.pressing_lshift then pe.player.walk_speed else pe.player.move_speed)).1)) ∧
    t'.y = min 900 (max 0 (pe.tran.y +
      (inp.get_move (if inp.pressing_lshift then pe.player.walk_speed else pe.player.move_speed)).2)) ∧
    t'.z = pe.tran.z := by
  unfold process_player at hrun
  rw [hpl, hin] at hrun
  dsimp only [] at hrun
  by_cases hsp : (shoot_step pe.player.shoot_cooldown inp.pressing_z).2 = true
  · rw [if_pos hsp] at hrun
    cases htex : w.texture_handles.player_bullet with
    | none =>
      rw [htex] at hrun
      dsimp only [] at hrun
      exact Except.noConfusion hrun
    | some hd =>
      rw [htex] at hrun
      dsimp only [] at hrun
      split at hrun <;> rename_i hwk <;> split at hrun <;>
        (injection hrun with h1;
         have hB := congrArg Prod.snd h1;
         dsimp only [] at hB;
         injection hB with h3;
         subst h3;
         refine ⟨?_, ?_, ?_⟩ <;> simp [hwk, min_comm, max_comm, add_comm])
  · rw [if_neg hsp] at hrun
    dsimp only [] at hrun
    split at hrun <;> rename_i hwk <;> split at hrun <;>
      (injection hrun with h1;
       have hB := congrArg Prod.snd h1;
       dsimp only [] at hB;
       injection hB with h3;
       subst h3;
       refine ⟨?_, ?_, ?_⟩ <;> simp [hwk, min_comm, max_comm, add_comm])

/-- Witness for C6: the spec's example — input vector (10000, 10000) from
position (10, 10) is clamped to (1600, 900), z untouched. -/
theorem player_move_clamp_witness :
    tMoved.x = 1600 ∧ tMoved.y = 900 ∧ tMoved.z = peSample.tran.z := by
  have h := player_move_clamp_spec wMove peSample inputRush wMoved tMoved rfl rfl rfl
  refine ⟨?_, ?_, h.2.2⟩
  · rw [h.1]
    norm_num [peSample, inputRush, min_def, max_def]
  · rw [h.2.1]
    norm_num [peSample, inputRush, min_def, max_def]

/-- Claim C7: the shoot cooldown never goes negative; a bullet is spawned
exactly when the cooldown is 0 and the fire key is held, resetting the cooldown
to exactly 2; with a positive cooldown it is decremented by exactly 1 and no
bullet spawns; at 0 without fire it stays 0; and in any successful
`process_player` step the player-bullet store grows by exactly the spawn
outcome of `shoot_step`. -/
theorem shoot_cooldown_spec (cd : ℤ) (fire : Bool) (h0 : 0 ≤ cd) :
    0 ≤ (shoot_step cd fire).1 ∧
    ((shoot_step cd fire).2 = true ↔ cd = 0 ∧ fire = true) ∧
    (cd = 0 → fire = true → shoot_step cd fire = (2, true)) ∧
    (0 < cd → shoot_step cd fire = (cd - 1, false)) ∧
    (cd = 0 → fire = false → shoot_step cd fire = (cd, false)) ∧
    (∀ (w w' : World) (pe : PlayerEnt) (inp : InputState) (pt : Option Transform),
      w.core.player = some pe → w.core.cur_input = some inp →
      pe.player.shoot_cooldown = cd → inp.pressing_z = fire →
      process_player w = .ok (w', pt) →
      w'.player_bullets.length = w.player_bullets.length +
        (if (shoot_step cd fire).2 then 1 else 0)) := by
  refine ⟨?_, ?_, ?_, ?_, ?_, ?_⟩
  · by_cases hcd : cd = 0
    · subst hcd
      cases fire <;> simp [shoot_step]
    · simp only [shoot_step, if_neg hcd]
      omega
  · by_cases hcd : cd = 0
    · subst hcd
      cases fire <;> simp [shoot_step]
    · simp [shoot_step, hcd]
  · intro h1 h2
    subst h1
    subst h2
    simp [shoot_step]
  · intro h1
    have hcd : ¬ cd = 0 := by omega
    simp [shoot_step, hcd]
  · intro h1 h2
    subst h1
    subst h2
    simp [shoot_step]
  · intro w w' pe inp pt hpl hin hcd hfire hrun
    subst hcd
    subst hfire
    unfold process_player at hrun
    rw [hpl, hin] at hrun
    dsimp only [] at hrun
    by_cases hsp : (shoot_step pe.player.shoot_cooldown inp.pressing_z).2 = true
    · rw [if_pos hsp] at hrun
      cases htex : w.texture_handles.player_bullet with
      | none =>
        rw [htex] at hrun
        dsimp only [] at hrun
        exact Except.noConfusion hrun
      | some hd =>
        rw [htex] at hrun
        dsimp only [] at hrun
        split at hrun <;> split at hrun <;>
          (injection hrun with h1;
           have hA := congrArg Prod.fst h1;
           dsimp only [] at hA;
           rw [← hA];
           simp [hsp, List.length_append])
    · rw [if_neg hsp] at hrun
      dsimp only [] at hrun
      split at hrun <;> split at hrun <;>
        (injection hrun with h1;
         have hA := congrArg Prod.fst h1;
         dsimp only [] at hA;
         rw [← hA];
         simp [hsp])

/-- Witness for C7: cooldown 2 with fire held — still nonnegative, decremented
to 1, no spawn. -/
theorem shoot_cooldown_witness :
    0 ≤ (shoot_step 2 true).1 ∧ shoot_step 2 true = (2 - 1, false) :=
  ⟨(shoot_cooldown_spec 2 true (by norm_num)).1,
   (shoot_cooldown_spec 2 true (by norm_num)).2.2.2.1 (by norm_num)⟩

/-- Claim C4: in the death check the A side of `is_collide_with` is the enemy
bullet's own shape, so whenever a player exists and some enemy bullet has a
circle shape with positive stored squared radius, the existential death test
succeeds regardless of any distance: the step deletes the player and clears the
global player reference. -/
theorem player_death_placeholder_spec (w : World) (pe : PlayerEnt) (inp : InputState)
    (bullet : EnemyBulletEnt) (r_2 : ℚ) (w' : World) (pt : Option Transform)
    (hpl : w.core.player = some pe) (hin : w.core.cur_input = some inp)
    (hb : bullet ∈ w.enemy_bullets) (hc : bullet.collide = .Circle r_2) (hr : 0 < r_2)
    (hrun : process_player w = .ok (w', pt)) :
    w'.core.player = none := by
  have hany : ∀ (c : CollideType) (v : Vec3),
      (w.enemy_bullets.any fun b => b.collide.is_collide_with b.tran.translation c v) = true := by
    intro c v
    refine List.any_eq_true.mpr ⟨bullet, hb, ?_⟩
    rw [hc]
    show (if r_2 ≤ 0 then c.is_collide_with_point bullet.tran.translation v else true) = true
    rw [if_neg (not_le.mpr hr)]
  unfold process_player at hrun
  rw [hpl, hin] at hrun
  dsimp only [] at hrun
  by_cases hsp : (shoot_step pe.player.shoot_cooldown inp.pressing_z).2 = true
  · rw [if_pos hsp] at hrun
    cases htex : w.texture_handles.player_bullet with
    | none =>
      rw [htex] at hrun
      dsimp only [] at hrun
      exact Except.noConfusion hrun
    | some hd =>
      rw [htex] at hrun
      dsimp only [] at hrun
      split at hrun <;> rename_i hwk <;> split at hrun <;> rename_i hdie <;>
        first
          | exact absurd (hany _ _) hdie
          | (injection hrun with h1
             have hA := congrArg Prod.fst h1
             dsimp only [] at hA
             rw [← hA])
  · rw [if_neg hsp] at hrun
    dsimp only [] at hrun
    split at hrun <;> rename_i hwk <;> split at hrun <;> rename_i hdie <;>
      first
        | exact absurd (hany _ _) hdie
        | (injection hrun with h1
           have hA := congrArg Prod.fst h1
           dsimp only [] at hA
           rw [← hA])

/-- Witness for C4: a stationary player at (10, 10) and a positive-radius enemy
bullet at (1000, 500) — far away — still kills the player in one step. -/
theorem player_death_placeholder_witness : wDead.core.player = none :=
  player_death_placeholder_spec wDeath peSample inputStill ebFar 1 wDead (some tStill)
    rfl rfl (List.mem_singleton.mpr rfl) rfl (by norm_num) rfl

/-- Claim C9: `SummonBullet` handling resolves the script via the manager — a
cache hit reuses the cached script with zero load calls and leaves the manager
unchanged; a cache miss makes exactly one load call (caching the result), and
fails with `ScriptLoadError` when the name does not resolve; on success a fresh
context bound to the given args is built and the new enemy-bullet entity
carries the resolved sprite, the given shape, position (x, y, z) and rotation
angleDegrees converted to radians. -/
theorem summon_bullet_spec (trig : Trig) (sm : ScriptManager) (tex : TextureHandles)
    (name : String) (x y z angle : ℚ) (collide : CollideType) (script_name : String) (args : List ℚ) :
    (∀ s, sm.get_script script_name = some s → ∀ h, tex.bullets name = some h →
      handle_summon trig sm tex name x y z angle collide script_name args =
        .ok (sm, { collide := collide, script := ScriptContext.new s args,
                   tran := (Transform.set_translation_xyz {} x y z).set_rotation_z_axis trig (angle / 180 * PI),
                   sprite := h }, 0)) ∧
    (∀ s, sm.get_script script_name = none → sm.loader script_name = some s →
      ∀ h, tex.bullets name = some h →
      handle_summon trig sm tex name x y z angle collide script_name args =
        .ok ({ sm with cache := (script_name, s) :: sm.cache },
             { collide := collide, script := ScriptContext.new s args,
               tran := (Transform.set_translation_xyz {} x y z).set_rotation_z_axis trig (angle / 180 * PI),
               sprite := h }, 1)) ∧
    (sm.get_script script_name = none → sm.loader script_name = none →
      handle_summon trig sm tex name x y z angle collide script_name args =
        .error (.scriptLoad (.unresolved script_name))) ∧
    ((Transform.set_translation_xyz {} x y z).set_rotation_z_axis trig (angle / 180 * PI)).rotZ
        = angle / 180 * PI ∧
    ((Transform.set_translation_xyz {} x y z).set_rotation_z_axis trig (angle / 180 * PI)).translation
        = ⟨x, y, z⟩ := by
  refine ⟨?_, ?_, ?_, rfl, rfl⟩
  · intro s hs h hh
    unfold handle_summon
    rw [hs]
    dsimp only []
    rw [hh]
  · intro s hs hl h hh
    unfold handle_summon
    rw [hs]
    simp only [ScriptManager.load_script]
    rw [hl]
    dsimp only []
    rw [hh]
  · intro hs hl
    unfold handle_summon
    rw [hs]
    simp only [ScriptManager.load_script]
    rw [hl]

/-- Witness for C9: with "s1" cached, summoning reuses it with zero loads; with
an empty cache and a working loader, exactly one load happens and the result is
cached; with an empty cache and a failing loader, the summon fails with
`ScriptLoadError`. -/
theorem summon_bullet_witness :
    handle_summon trig0 smCached texBasic "basic" 100 200 0 90 (.Circle 4) "s1" [] =
      .ok (smCached, { collide := .Circle 4, script := ScriptContext.new script0 [],
                       tran := (Transform.set_translation_xyz {} 100 200 0).set_rotation_z_axis trig0 (90 / 180 * PI),
                       sprite := { id := "basic" } }, 0) ∧
    handle_summon trig0 smLoadable texBasic "basic" 100 200 0 90 (.Circle 4) "s1" [] =
      .ok ({ smLoadable with cache := [("s1", script0)] },
           { collide := .Circle 4, script := ScriptContext.new script0 [],
             tran := (Transform.set_translation_xyz {} 100 200 0).set_rotation_z_axis trig0 (90 / 180 * PI),
             sprite := { id := "basic" } }, 1) ∧
    handle_summon trig0 sm0 tex0 "basic" 100 200 0 90 (.Circle 4) "s2" [] =
      .error (.scriptLoad (.unresolved "s2")) :=
  ⟨(summon_bullet_spec trig0 smCached texBasic "basic" 100 200 0 90 (.Circle 4) "s1" []).1
      script0 rfl { id := "basic" } rfl,
   (summon_bullet_spec trig0 smLoadable texBasic "basic" 100 200 0 90 (.Circle 4) "s1" []).2.1
      script0 rfl rfl { id := "basic" } rfl,
   (summon_bullet_spec trig0 sm0 tex0 "basic" 100 200 0 90 (.Circle 4) "s2" []).2.2.1 rfl rfl⟩
